import Mathlib

/-!
Shallow embedding of `setgpu.py`: a Blender configuration script that
selects a GPU compute backend (OPTIX preferred, CUDA fallback) and forces
the OpenImageDenoise denoiser when denoising is detected.

The host state (`bpy.context`) is modelled as a tree of records.  An
attribute that the script probes before touching (`hasattr` / `getattr`
with a default) is modelled as an `Option` field: `none` means the
attribute does not exist on this host version.  Writing to an absent
probed attribute raises an `AttributeError` in bpy, so fallible
operations return `Except String`.  Attributes the script reads or writes
unconditionally and never probes are modelled as plain fields.
-/

/-- A compute device from `prefs.devices`, with its kind and enablement flag. -/
structure Device where
  name : String
  type : String
  use : Bool
  deriving Repr, DecidableEq

/-- A compositor node (`scene.node_tree.nodes`); `use_gpu` / `use_hdr` are
probed by the script, hence optional. -/
structure Node where
  type : String
  use_gpu : Option Bool
  use_hdr : Option Bool
  deriving Repr, DecidableEq

/-- The compositor node graph `scene.node_tree`. -/
structure NodeTree where
  nodes : List Node
  deriving Repr, DecidableEq

/-- `scene.cycles`: scene-level Cycles settings.  `use_denoising` is probed
with a `getattr` default in the detector, the GPU-denoising flags and
`use_auto_tile` are probed with `hasattr`, hence all are optional. -/
structure CyclesSettings where
  device : String
  use_denoising : Option Bool
  denoiser : String
  denoising_store_passes : Bool
  denoising_prefilter : String
  denoising_quality : String
  use_denoising_gpu : Option Bool
  denoising_use_gpu : Option Bool
  use_auto_tile : Option Bool
  tile_x : Nat
  tile_y : Nat
  deriving Repr, DecidableEq

/-- `scene.render`: the render engine name and the probed compositor-GPU flag. -/
structure RenderSettings where
  engine : String
  use_compositor_gpu : Option Bool
  deriving Repr, DecidableEq

/-- `bpy.context.scene`. -/
structure Scene where
  render : RenderSettings
  cycles : CyclesSettings
  use_nodes : Bool
  node_tree : Option NodeTree
  deriving Repr, DecidableEq

/-- `view_layer.cycles`; its `use_denoising` is probed with `hasattr`. -/
structure ViewLayerCycles where
  use_denoising : Option Bool
  deriving Repr, DecidableEq

/-- `bpy.context.view_layer`; the pass flags are probed with `hasattr`. -/
structure ViewLayer where
  cycles : ViewLayerCycles
  use_pass_normal : Option Bool
  use_pass_diffuse_color : Option Bool
  deriving Repr, DecidableEq

/-- `bpy.context.preferences.system`; `compositor_device` is probed. -/
structure SystemPrefs where
  compositor_device : Option String
  deriving Repr, DecidableEq

/-- `bpy.context.preferences.addons['cycles'].preferences`. -/
structure CyclesPreferences where
  compute_device_type : String
  devices : List Device
  deriving Repr, DecidableEq

/-- `bpy.context.preferences`. -/
structure Preferences where
  cycles : CyclesPreferences
  system : SystemPrefs
  deriving Repr, DecidableEq

/-- The whole host state reachable from `bpy.context`. -/
structure Context where
  scene : Scene
  view_layer : ViewLayer
  preferences : Preferences
  deriving Repr, DecidableEq

/-- `if hasattr(obj, f): obj.f = v` — a guarded write: sets the field only
when it exists, leaves an absent field absent. -/
def writeIfPresent (o : Option α) (v : α) : Option α :=
  match o with
  | some _ => some v
  | none => none

/-- `test_optix_availability`: true when any device has type `'OPTIX'`.
(`refresh_devices` only rescans hardware; the device list is the model.) -/
def test_optix_availability (ctx : Context) : Bool :=
  ctx.preferences.cycles.devices.any fun d => d.type == "OPTIX"

/-- `setup_gpu_rendering`: sets engine to CYCLES and cycles device to GPU,
then prefers OPTIX (enabling exactly the OPTIX devices) and falls back to
CUDA; returns the selected kind, or `none` when no CUDA device was found. -/
def setup_gpu_rendering (ctx : Context) : Option String × Context :=
  let ctx := { ctx with scene := { ctx.scene with
    render := { ctx.scene.render with engine := "CYCLES" },
    cycles := { ctx.scene.cycles with device := "GPU" } } }
  if test_optix_availability ctx then
    let prefs := { ctx.preferences.cycles with
      compute_device_type := "OPTIX",
      devices := ctx.preferences.cycles.devices.map fun d =>
        { d with use := d.type == "OPTIX" } }
    (some "OPTIX", { ctx with preferences := { ctx.preferences with cycles := prefs } })
  else
    let found := ctx.preferences.cycles.devices.any fun d => d.type == "CUDA"
    let prefs := { ctx.preferences.cycles with
      compute_device_type := "CUDA",
      devices := ctx.preferences.cycles.devices.map fun d =>
        { d with use := d.type == "CUDA" } }
    (if found then some "CUDA" else none,
     { ctx with preferences := { ctx.preferences with cycles := prefs } })

/-- `check_denoising_enabled`: scene flag (`getattr` default False), else
view-layer flag (`hasattr` and truthy), else, when `use_nodes` and a node
tree are present, whether any node has type `'DENOISE'`. -/
def check_denoising_enabled (ctx : Context) : Bool :=
  if ctx.scene.cycles.use_denoising.getD false then true
  else if ctx.view_layer.cycles.use_denoising.isSome &&
      ctx.view_layer.cycles.use_denoising.getD false then true
  else if ctx.scene.use_nodes then
    match ctx.scene.node_tree with
    | some t => t.nodes.any fun n => n.type == "DENOISE"
    | none => false
  else false

/-- The per-node update in `setup_oidn_denoising`: on a `'DENOISE'` node,
set `use_gpu` and `use_hdr` when they exist. -/
def oidn_node_update (n : Node) : Node :=
  if n.type == "DENOISE" then
    { n with use_gpu := writeIfPresent n.use_gpu true,
             use_hdr := writeIfPresent n.use_hdr true }
  else n

/-- `setup_oidn_denoising`: writes the five scene-level denoiser fields
unconditionally — so it raises when the probed-elsewhere `use_denoising`
attribute is absent — then performs the guarded writes (pass flags,
GPU-denoising flags, compositor flags, denoise-node flags). -/
def setup_oidn_denoising (ctx : Context) : Except String Context :=
  match ctx.scene.cycles.use_denoising with
  | none => .error "AttributeError: use_denoising"
  | some _ =>
    let cy := { ctx.scene.cycles with
      use_denoising := some true,
      denoiser := "OPENIMAGEDENOISE",
      denoising_store_passes := true,
      denoising_prefilter := "ACCURATE",
      denoising_quality := "HIGH",
      use_denoising_gpu := writeIfPresent ctx.scene.cycles.use_denoising_gpu true,
      denoising_use_gpu := writeIfPresent ctx.scene.cycles.denoising_use_gpu true }
    let vl := { ctx.view_layer with
      use_pass_normal := writeIfPresent ctx.view_layer.use_pass_normal true,
      use_pass_diffuse_color := writeIfPresent ctx.view_layer.use_pass_diffuse_color true }
    let rend := { ctx.scene.render with
      use_compositor_gpu := writeIfPresent ctx.scene.render.use_compositor_gpu true }
    let sys := { ctx.preferences.system with
      compositor_device := writeIfPresent ctx.preferences.system.compositor_device "GPU" }
    let tree :=
      if ctx.scene.use_nodes then
        match ctx.scene.node_tree with
        | some t => some { nodes := t.nodes.map oidn_node_update }
        | none => none
      else ctx.scene.node_tree
    .ok { ctx with
      scene := { ctx.scene with cycles := cy, render := rend, node_tree := tree },
      view_layer := vl,
      preferences := { ctx.preferences with system := sys } }

/-- `setup_gpu_and_denoiser`: abort if the engine is not CYCLES, run the
device selector, abort on `None`, abort if denoising is not detected, run
the denoiser configurator, then the auto-tile block. -/
def setup_gpu_and_denoiser (ctx : Context) : Except String Context :=
  if ctx.scene.render.engine != "CYCLES" then .ok ctx
  else
    match setup_gpu_rendering ctx with
    | (none, ctx1) => .ok ctx1
    | (some _, ctx1) =>
      if !check_denoising_enabled ctx1 then .ok ctx1
      else
        match setup_oidn_denoising ctx1 with
        | .error e => .error e
        | .ok ctx2 =>
          if ctx2.scene.cycles.use_auto_tile.isSome then
            .ok { ctx2 with scene := { ctx2.scene with cycles :=
              { ctx2.scene.cycles with
                use_auto_tile := some false, tile_x := 256, tile_y := 256 } } }
          else .ok ctx2

/-- The `__main__` block: run the orchestrator; on success print the
success line and exit 0, on an exception print the message and exit 1. -/
def main_entry (ctx : Context) : List String × Nat :=
  match setup_gpu_and_denoiser ctx with
  | .ok _ => (["Setup completed successfully."], 0)
  | .error e => (["Error: " ++ e], 1)

/-- The orchestrator reaches the configurator: engine is CYCLES, the
selector picked a kind, and denoising is detected on the selector's
post-state. -/
def reaches_configurator (ctx : Context) : Bool :=
  ctx.scene.render.engine == "CYCLES" &&
    ((setup_gpu_rendering ctx).1.isSome &&
      check_denoising_enabled (setup_gpu_rendering ctx).2)

/-- The denoising-detection disjunction exactly as the specification words
it for claim C2: scene flag true, or view-layer flag exists and is true,
or a denoise-typed node is present in the scene's node graph (with no
condition on `use_nodes`). -/
def denoising_indicated_spec (ctx : Context) : Bool :=
  ctx.scene.cycles.use_denoising.getD false ||
  (ctx.view_layer.cycles.use_denoising.isSome &&
    ctx.view_layer.cycles.use_denoising.getD false) ||
  (match ctx.scene.node_tree with
   | some t => t.nodes.any fun n => n.type == "DENOISE"
   | none => false)

/-- A device of the given kind, initially disabled. -/
def sampleDevice (t : String) : Device := { name := "dev-" ++ t, type := t, use := false }

/-- Scene-level Cycles settings with every probed attribute present. -/
def baseCycles : CyclesSettings where
  device := "CPU"
  use_denoising := some false
  denoiser := "NLM"
  denoising_store_passes := false
  denoising_prefilter := "FAST"
  denoising_quality := "LOW"
  use_denoising_gpu := some false
  denoising_use_gpu := some false
  use_auto_tile := some true
  tile_x := 64
  tile_y := 64

/-- A scene with the CYCLES engine active and no compositor node tree. -/
def baseScene : Scene where
  render := { engine := "CYCLES", use_compositor_gpu := some false }
  cycles := baseCycles
  use_nodes := false
  node_tree := none

/-- A view layer with its denoising flag present and on. -/
def baseViewLayer : ViewLayer where
  cycles := { use_denoising := some true }
  use_pass_normal := some false
  use_pass_diffuse_color := some false

/-- Preferences holding one device of each kind. -/
def basePreferences : Preferences where
  cycles := { compute_device_type := "NONE"
              devices := [sampleDevice "OPTIX", sampleDevice "CUDA", sampleDevice "CPU"] }
  system := { compositor_device := some "CPU" }

/-- A representative host state: CYCLES active, one device of each kind,
view-layer denoising on, every probed attribute present. -/
def baseContext : Context where
  scene := baseScene
  view_layer := baseViewLayer
  preferences := basePreferences

/-- Preferences with CUDA and CPU devices but no OPTIX device. -/
def cudaOnlyContext : Context where
  scene := baseScene
  view_layer := baseViewLayer
  preferences := { cycles := { compute_device_type := "NONE"
                               devices := [sampleDevice "CUDA", sampleDevice "CPU"] }
                   system := { compositor_device := some "CPU" } }

/-- Preferences with neither an OPTIX nor a CUDA device. -/
def noGpuContext : Context where
  scene := baseScene
  view_layer := baseViewLayer
  preferences := { cycles := { compute_device_type := "NONE"
                               devices := [sampleDevice "CPU", sampleDevice "HIP"] }
                   system := { compositor_device := some "CPU" } }

/-- C9: `setup_gpu_rendering` sets the render engine to CYCLES and the
cycles device to GPU on every branch, including the no-device branch. -/
theorem setup_gpu_rendering_forces_cycles_gpu (ctx : Context) :
    (setup_gpu_rendering ctx).2.scene.render.engine = "CYCLES" ∧
    (setup_gpu_rendering ctx).2.scene.cycles.device = "GPU" := by
  simp only [setup_gpu_rendering, test_optix_availability]
  split
  · exact ⟨rfl, rfl⟩
  · split <;> exact ⟨rfl, rfl⟩

/-- C6: when the render engine is not CYCLES the orchestrator returns the
host state unchanged and raises nothing. -/
theorem orchestrator_skips_when_not_cycles (ctx : Context)
    (h : ctx.scene.render.engine ≠ "CYCLES") :
    setup_gpu_and_denoiser ctx = Except.ok ctx := by
  unfold setup_gpu_and_denoiser
  rw [if_pos (by simpa [bne_iff_ne] using h)]

/-- A host state whose active engine is EEVEE, not CYCLES. -/
def eeveeContext : Context where
  scene := { render := { engine := "BLENDER_EEVEE", use_compositor_gpu := some false }
             cycles := baseCycles
             use_nodes := false
             node_tree := none }
  view_layer := baseViewLayer
  preferences := basePreferences

/-- Witness for C6 at a concrete EEVEE host state. -/
theorem orchestrator_skips_when_not_cycles_witness :
    eeveeContext.scene.render.engine ≠ "CYCLES" ∧
    setup_gpu_and_denoiser eeveeContext = Except.ok eeveeContext :=
  ⟨by decide, orchestrator_skips_when_not_cycles eeveeContext (by decide)⟩

/-- C3: with at least one OPTIX device, the selector returns OPTIX, sets
the compute backend to OPTIX, and enables exactly the OPTIX devices. -/
theorem optix_selected_when_available (ctx : Context)
    (h : ∃ d ∈ ctx.preferences.cycles.devices, d.type = "OPTIX") :
    (setup_gpu_rendering ctx).1 = some "OPTIX" ∧
    (setup_gpu_rendering ctx).2.preferences.cycles.compute_device_type = "OPTIX" ∧
    ∀ d ∈ (setup_gpu_rendering ctx).2.preferences.cycles.devices,
      (d.use = true ↔ d.type = "OPTIX") := by
  obtain ⟨d, hd, hty⟩ := h
  have htest : (ctx.preferences.cycles.devices.any fun d => d.type == "OPTIX") = true := by
    simp only [List.any_eq_true, beq_iff_eq]
    exact ⟨d, hd, hty⟩
  simp only [setup_gpu_rendering, test_optix_availability]
  rw [if_pos htest]
  refine ⟨rfl, rfl, ?_⟩
  intro d' hd'
  rw [List.mem_map] at hd'
  obtain ⟨d0, _, rfl⟩ := hd'
  simp [beq_iff_eq]

/-- Witness for C3 at a host state holding an OPTIX, a CUDA and a CPU device. -/
theorem optix_selected_when_available_witness :
    (∃ d ∈ baseContext.preferences.cycles.devices, d.type = "OPTIX") ∧
    ((setup_gpu_rendering baseContext).1 = some "OPTIX" ∧
     (setup_gpu_rendering baseContext).2.preferences.cycles.compute_device_type = "OPTIX" ∧
     ∀ d ∈ (setup_gpu_rendering baseContext).2.preferences.cycles.devices,
       (d.use = true ↔ d.type = "OPTIX")) :=
  ⟨by decide, optix_selected_when_available baseContext (by decide)⟩

/-- C4: with no OPTIX device but at least one CUDA device, the selector
returns CUDA, sets the compute backend to CUDA, and enables exactly the
CUDA devices. -/
theorem cuda_selected_as_fallback (ctx : Context)
    (hno : ∀ d ∈ ctx.preferences.cycles.devices, d.type ≠ "OPTIX")
    (hyes : ∃ d ∈ ctx.preferences.cycles.devices, d.type = "CUDA") :
    (setup_gpu_rendering ctx).1 = some "CUDA" ∧
    (setup_gpu_rendering ctx).2.preferences.cycles.compute_device_type = "CUDA" ∧
    ∀ d ∈ (setup_gpu_rendering ctx).2.preferences.cycles.devices,
      (d.use = true ↔ d.type = "CUDA") := by
  obtain ⟨d, hd, hty⟩ := hyes
  have htest : (ctx.preferences.cycles.devices.any fun d => d.type == "OPTIX") = false := by
    simp only [List.any_eq_false, beq_iff_eq]
    exact hno
  have hfound : (ctx.preferences.cycles.devices.any fun d => d.type == "CUDA") = true := by
    simp only [List.any_eq_true, beq_iff_eq]
    exact ⟨d, hd, hty⟩
  simp only [setup_gpu_rendering, test_optix_availability]
  rw [if_neg (by simp [htest]), hfound]
  refine ⟨rfl, rfl, ?_⟩
  intro d' hd'
  rw [List.mem_map] at hd'
  obtain ⟨d0, _, rfl⟩ := hd'
  simp [beq_iff_eq]

/-- Witness for C4 at a host state holding a CUDA and a CPU device. -/
theorem cuda_selected_as_fallback_witness :
    (∀ d ∈ cudaOnlyContext.preferences.cycles.devices, d.type ≠ "OPTIX") ∧
    (∃ d ∈ cudaOnlyContext.preferences.cycles.devices, d.type = "CUDA") ∧
    ((setup_gpu_rendering cudaOnlyContext).1 = some "CUDA" ∧
     (setup_gpu_rendering cudaOnlyContext).2.preferences.cycles.compute_device_type = "CUDA" ∧
     ∀ d ∈ (setup_gpu_rendering cudaOnlyContext).2.preferences.cycles.devices,
       (d.use = true ↔ d.type = "CUDA")) :=
  ⟨by decide, by decide, cuda_selected_as_fallback cudaOnlyContext (by decide) (by decide)⟩

/-- C5: with neither an OPTIX nor a CUDA device, the selector returns the
none value, leaves every device disabled, and leaves the compute backend
set to CUDA. -/
theorem no_gpu_selected_when_none_available (ctx : Context)
    (hno : ∀ d ∈ ctx.preferences.cycles.devices, d.type ≠ "OPTIX")
    (hnc : ∀ d ∈ ctx.preferences.cycles.devices, d.type ≠ "CUDA") :
    (setup_gpu_rendering ctx).1 = none ∧
    (setup_gpu_rendering ctx).2.preferences.cycles.compute_device_type = "CUDA" ∧
    ∀ d ∈ (setup_gpu_rendering ctx).2.preferences.cycles.devices, d.use = false := by
  have htest : (ctx.preferences.cycles.devices.any fun d => d.type == "OPTIX") = false := by
    simp only [List.any_eq_false, beq_iff_eq]
    exact hno
  have hfound : (ctx.preferences.cycles.devices.any fun d => d.type == "CUDA") = false := by
    simp only [List.any_eq_false, beq_iff_eq]
    exact hnc
  simp only [setup_gpu_rendering, test_optix_availability]
  rw [if_neg (by simp [htest]), hfound]
  refine ⟨rfl, rfl, ?_⟩
  intro d' hd'
  rw [List.mem_map] at hd'
  obtain ⟨d0, hd0, rfl⟩ := hd'
  simpa [beq_iff_eq] using hnc d0 hd0

/-- Witness for C5 at a host state holding only CPU and HIP devices. -/
theorem no_gpu_selected_when_none_available_witness :
    (∀ d ∈ noGpuContext.preferences.cycles.devices, d.type ≠ "OPTIX") ∧
    (∀ d ∈ noGpuContext.preferences.cycles.devices, d.type ≠ "CUDA") ∧
    ((setup_gpu_rendering noGpuContext).1 = none ∧
     (setup_gpu_rendering noGpuContext).2.preferences.cycles.compute_device_type = "CUDA" ∧
     ∀ d ∈ (setup_gpu_rendering noGpuContext).2.preferences.cycles.devices, d.use = false) :=
  ⟨by decide, by decide,
    no_gpu_selected_when_none_available noGpuContext (by decide) (by decide)⟩

/-- A compositor denoise node with both probed flags present. -/
def denoiseNode : Node where
  type := "DENOISE"
  use_gpu := some false
  use_hdr := some false

/-- A host state whose node tree holds a denoise node while the compositor
toggle `use_nodes` is off and both denoising flags are off. -/
def nodesOffContext : Context where
  scene := { render := { engine := "CYCLES", use_compositor_gpu := some false }
             cycles := baseCycles
             use_nodes := false
             node_tree := some { nodes := [denoiseNode] } }
  view_layer := { cycles := { use_denoising := some false }
                  use_pass_normal := some false
                  use_pass_diffuse_color := some false }
  preferences := basePreferences

/-- C2 counterexample: with `use_nodes` off but a denoise node present in
the node tree, the spec's three-source disjunction holds while
`check_denoising_enabled` returns false, so the claimed equivalence fails
at this host state. -/
theorem check_denoising_claim_counterexample :
    ¬(check_denoising_enabled nodesOffContext = true ↔
      denoising_indicated_spec nodesOffContext = true) := by decide

/-- C2 amended: `check_denoising_enabled` is true iff the scene flag is
true, or the view-layer flag exists and is true, or the compositor toggle
`use_nodes` is on and a node tree is present holding a denoise-typed node. -/
theorem check_denoising_enabled_iff (ctx : Context) :
    check_denoising_enabled ctx = true ↔
      ctx.scene.cycles.use_denoising = some true ∨
      ctx.view_layer.cycles.use_denoising = some true ∨
      (ctx.scene.use_nodes = true ∧
        ∃ t, ctx.scene.node_tree = some t ∧ ∃ n ∈ t.nodes, n.type = "DENOISE") := by
  unfold check_denoising_enabled
  rcases hs : ctx.scene.cycles.use_denoising with _ | sb <;>
  rcases hv : ctx.view_layer.cycles.use_denoising with _ | vb <;>
  rcases ht : ctx.scene.node_tree with _ | t <;>
  cases hu : ctx.scene.use_nodes <;>
  first
  | (cases sb <;> cases vb <;> simp [List.any_eq_true, beq_iff_eq])
  | (cases sb <;> simp [List.any_eq_true, beq_iff_eq])
  | (cases vb <;> simp [List.any_eq_true, beq_iff_eq])
  | simp [List.any_eq_true, beq_iff_eq]

/-- A host state on which the code's own detector treats `use_denoising`
as optional and absent, while view-layer denoising is detected. -/
def missingDenoisingContext : Context where
  scene := { render := { engine := "CYCLES", use_compositor_gpu := none }
             cycles := { baseCycles with use_denoising := none
                                         use_denoising_gpu := none
                                         denoising_use_gpu := none
                                         use_auto_tile := none }
             use_nodes := false
             node_tree := none }
  view_layer := { cycles := { use_denoising := some true }
                  use_pass_normal := none
                  use_pass_diffuse_color := none }
  preferences := basePreferences

/-- C1 counterexample: the five scene-level denoiser writes are not
preceded by existence probes; on a host state missing the optional
`use_denoising` attribute (which the detector itself probes with a
`getattr` default) the configurator raises instead of degrading. -/
theorem setup_oidn_unguarded_write_counterexample :
    missingDenoisingContext.scene.cycles.use_denoising = none ∧
    setup_oidn_denoising missingDenoisingContext =
      Except.error "AttributeError: use_denoising" := ⟨rfl, rfl⟩

/-- C1 amended: when the unconditionally written `use_denoising` attribute
exists, the configurator does not raise, and every write to the probed
attributes is guarded, so absent probed attributes stay absent; on a
denoise node the probed node flags are likewise preserved when absent. -/
theorem setup_oidn_guarded_writes (ctx : Context)
    (h : ctx.scene.cycles.use_denoising.isSome = true) :
    ∃ ctx', setup_oidn_denoising ctx = Except.ok ctx' ∧
      (ctx.view_layer.use_pass_normal = none →
        ctx'.view_layer.use_pass_normal = none) ∧
      (ctx.view_layer.use_pass_diffuse_color = none →
        ctx'.view_layer.use_pass_diffuse_color = none) ∧
      (ctx.scene.cycles.use_denoising_gpu = none →
        ctx'.scene.cycles.use_denoising_gpu = none) ∧
      (ctx.scene.cycles.denoising_use_gpu = none →
        ctx'.scene.cycles.denoising_use_gpu = none) ∧
      (ctx.scene.render.use_compositor_gpu = none →
        ctx'.scene.render.use_compositor_gpu = none) ∧
      (ctx.preferences.system.compositor_device = none →
        ctx'.preferences.system.compositor_device = none) ∧
      (ctx'.scene.node_tree = ctx.scene.node_tree ∨
        ∃ t, ctx.scene.node_tree = some t ∧
          ctx'.scene.node_tree = some { nodes := t.nodes.map oidn_node_update }) ∧
      (∀ n : Node, n.use_gpu = none → (oidn_node_update n).use_gpu = none) ∧
      (∀ n : Node, n.use_hdr = none → (oidn_node_update n).use_hdr = none) := by
  rcases hu : ctx.scene.cycles.use_denoising with _ | b
  · rw [hu] at h
    simp at h
  refine ⟨_, by unfold setup_oidn_denoising; rw [hu], ?_⟩
  refine ⟨?_, ?_, ?_, ?_, ?_, ?_, ?_, ?_, ?_⟩
  · intro hp
    simp [writeIfPresent, hp]
  · intro hp
    simp [writeIfPresent, hp]
  · intro hp
    simp [writeIfPresent, hp]
  · intro hp
    simp [writeIfPresent, hp]
  · intro hp
    simp [writeIfPresent, hp]
  · intro hp
    simp [writeIfPresent, hp]
  · cases hn : ctx.scene.use_nodes
    · left
      simp [hn]
    · rcases ht : ctx.scene.node_tree with _ | t
      · left
        simp [hn, ht]
      · right
        exact ⟨t, rfl, by simp [hn, ht]⟩
  · intro n hp
    unfold oidn_node_update
    split
    · simp [writeIfPresent, hp]
    · exact hp
  · intro n hp
    unfold oidn_node_update
    split
    · simp [writeIfPresent, hp]
    · exact hp

/-- A host state whose `use_denoising` exists while every other probed
attribute is absent. -/
def sparseContext : Context where
  scene := { render := { engine := "CYCLES", use_compositor_gpu := none }
             cycles := { baseCycles with use_denoising := some false
                                         use_denoising_gpu := none
                                         denoising_use_gpu := none
                                         use_auto_tile := none }
             use_nodes := true
             node_tree := some { nodes := [{ type := "DENOISE", use_gpu := none, use_hdr := none }] } }
  view_layer := { cycles := { use_denoising := none }
                  use_pass_normal := none
                  use_pass_diffuse_color := none }
  preferences := { cycles := basePreferences.cycles
                   system := { compositor_device := none } }

/-- Witness for the amended C1 at a host state missing every probed
attribute but holding `use_denoising`. -/
theorem setup_oidn_guarded_writes_witness :
    sparseContext.scene.cycles.use_denoising.isSome = true ∧
    (∃ ctx', setup_oidn_denoising sparseContext = Except.ok ctx' ∧
      (sparseContext.view_layer.use_pass_normal = none →
        ctx'.view_layer.use_pass_normal = none) ∧
      (sparseContext.view_layer.use_pass_diffuse_color = none →
        ctx'.view_layer.use_pass_diffuse_color = none) ∧
      (sparseContext.scene.cycles.use_denoising_gpu = none →
        ctx'.scene.cycles.use_denoising_gpu = none) ∧
      (sparseContext.scene.cycles.denoising_use_gpu = none →
        ctx'.scene.cycles.denoising_use_gpu = none) ∧
      (sparseContext.scene.render.use_compositor_gpu = none →
        ctx'.scene.render.use_compositor_gpu = none) ∧
      (sparseContext.preferences.system.compositor_device = none →
        ctx'.preferences.system.compositor_device = none) ∧
      (ctx'.scene.node_tree = sparseContext.scene.node_tree ∨
        ∃ t, sparseContext.scene.node_tree = some t ∧
          ctx'.scene.node_tree = some { nodes := t.nodes.map oidn_node_update }) ∧
      (∀ n : Node, n.use_gpu = none → (oidn_node_update n).use_gpu = none) ∧
      (∀ n : Node, n.use_hdr = none → (oidn_node_update n).use_hdr = none)) :=
  ⟨by decide, setup_oidn_guarded_writes sparseContext (by decide)⟩

/-- Fields of the configurator's post-state: the five scene-level denoiser
settings are forced, and the tile settings are untouched. -/
theorem setup_oidn_ok_fields (c c2 : Context)
    (h : setup_oidn_denoising c = Except.ok c2) :
    c2.scene.cycles.denoiser = "OPENIMAGEDENOISE" ∧
    c2.scene.cycles.use_denoising = some true ∧
    c2.scene.cycles.denoising_store_passes = true ∧
    c2.scene.cycles.denoising_prefilter = "ACCURATE" ∧
    c2.scene.cycles.denoising_quality = "HIGH" ∧
    c2.scene.cycles.use_auto_tile = c.scene.cycles.use_auto_tile ∧
    c2.scene.cycles.tile_x = c.scene.cycles.tile_x ∧
    c2.scene.cycles.tile_y = c.scene.cycles.tile_y := by
  unfold setup_oidn_denoising at h
  rcases hu : c.scene.cycles.use_denoising with _ | b <;> rw [hu] at h
  · simp at h
  · simp only [Except.ok.injEq] at h
    subst h
    exact ⟨rfl, rfl, rfl, rfl, rfl, rfl, rfl, rfl⟩

/-- The device selector never touches the tile settings. -/
theorem setup_gpu_rendering_preserves_tiles (ctx : Context) :
    (setup_gpu_rendering ctx).2.scene.cycles.use_auto_tile =
      ctx.scene.cycles.use_auto_tile ∧
    (setup_gpu_rendering ctx).2.scene.cycles.tile_x = ctx.scene.cycles.tile_x ∧
    (setup_gpu_rendering ctx).2.scene.cycles.tile_y = ctx.scene.cycles.tile_y := by
  simp only [setup_gpu_rendering, test_optix_availability]
  split
  · exact ⟨rfl, rfl, rfl⟩
  · split <;> exact ⟨rfl, rfl, rfl⟩

/-- On the success path the orchestrator's result is the configurator's
post-state, tile-adjusted exactly when `use_auto_tile` exists. -/
theorem orchestrator_success_decomp (ctx ctx' : Context)
    (hr : reaches_configurator ctx = true)
    (hok : setup_gpu_and_denoiser ctx = Except.ok ctx') :
    ∃ c2, setup_oidn_denoising (setup_gpu_rendering ctx).2 = Except.ok c2 ∧
      ((c2.scene.cycles.use_auto_tile.isSome = true ∧
        ctx' = { c2 with scene := { c2.scene with cycles :=
          { c2.scene.cycles with
            use_auto_tile := some false, tile_x := 256, tile_y := 256 } } }) ∨
       (c2.scene.cycles.use_auto_tile = none ∧ ctx' = c2)) := by
  unfold reaches_configurator at hr
  simp only [Bool.and_eq_true, beq_iff_eq, Option.isSome_iff_exists] at hr
  obtain ⟨heng, ⟨k, hk⟩, hden⟩ := hr
  unfold setup_gpu_and_denoiser at hok
  rw [if_neg (by simp [heng])] at hok
  rcases hg : setup_gpu_rendering ctx with ⟨g, c1⟩
  rw [hg] at hok hden hk
  simp only at hk hden
  subst hk
  simp only at hok
  rw [hden] at hok
  simp only [Bool.not_true, Bool.false_eq_true, if_false] at hok
  rcases ho : setup_oidn_denoising c1 with e | c2 <;> rw [ho] at hok
  · simp at hok
  · simp only at hok
    refine ⟨c2, rfl, ?_⟩
    rcases hi : c2.scene.cycles.use_auto_tile with _ | tb <;> rw [hi] at hok
    · right
      simp only [Option.isSome_none, Bool.false_eq_true, if_false,
        Except.ok.injEq] at hok
      exact ⟨rfl, hok.symm⟩
    · left
      simp only [Option.isSome_some, if_true, Except.ok.injEq] at hok
      exact ⟨rfl, hok.symm⟩

/-- C7: whenever the orchestrator reaches the configurator and returns
normally, the five scene-level denoiser settings are forced: OIDN engine,
denoising on, stored passes, ACCURATE prefilter, HIGH quality. -/
theorem oidn_forced_on_success_path (ctx ctx' : Context)
    (hr : reaches_configurator ctx = true)
    (hok : setup_gpu_and_denoiser ctx = Except.ok ctx') :
    ctx'.scene.cycles.denoiser = "OPENIMAGEDENOISE" ∧
    ctx'.scene.cycles.use_denoising = some true ∧
    ctx'.scene.cycles.denoising_store_passes = true ∧
    ctx'.scene.cycles.denoising_prefilter = "ACCURATE" ∧
    ctx'.scene.cycles.denoising_quality = "HIGH" := by
  obtain ⟨c2, ho, hcase⟩ := orchestrator_success_decomp ctx ctx' hr hok
  obtain ⟨h1, h2, h3, h4, h5, _, _, _⟩ := setup_oidn_ok_fields _ _ ho
  rcases hcase with ⟨_, rfl⟩ | ⟨_, rfl⟩
  · exact ⟨h1, h2, h3, h4, h5⟩
  · exact ⟨h1, h2, h3, h4, h5⟩

/-- The orchestrator's successful post-state on a given host state (the
input itself when the run raised). -/
def successResult (ctx : Context) : Context :=
  match setup_gpu_and_denoiser ctx with
  | .ok c => c
  | .error _ => ctx

/-- Witness for C7 at a concrete host state holding an OPTIX device with
view-layer denoising on. -/
theorem oidn_forced_on_success_path_witness :
    reaches_configurator baseContext = true ∧
    setup_gpu_and_denoiser baseContext = Except.ok (successResult baseContext) ∧
    ((successResult baseContext).scene.cycles.denoiser = "OPENIMAGEDENOISE" ∧
     (successResult baseContext).scene.cycles.use_denoising = some true ∧
     (successResult baseContext).scene.cycles.denoising_store_passes = true ∧
     (successResult baseContext).scene.cycles.denoising_prefilter = "ACCURATE" ∧
     (successResult baseContext).scene.cycles.denoising_quality = "HIGH") :=
  ⟨by decide, rfl,
    oidn_forced_on_success_path baseContext (successResult baseContext) (by decide) rfl⟩

/-- C10: on the success path, when `use_auto_tile` exists the orchestrator
turns it off and sets both tile sizes to 256; when it is absent all three
tile settings are left untouched. -/
theorem tile_settings_on_success_path (ctx ctx' : Context)
    (hr : reaches_configurator ctx = true)
    (hok : setup_gpu_and_denoiser ctx = Except.ok ctx') :
    (ctx.scene.cycles.use_auto_tile.isSome = true →
      ctx'.scene.cycles.use_auto_tile = some false ∧
      ctx'.scene.cycles.tile_x = 256 ∧ ctx'.scene.cycles.tile_y = 256) ∧
    (ctx.scene.cycles.use_auto_tile = none →
      ctx'.scene.cycles.use_auto_tile = none ∧
      ctx'.scene.cycles.tile_x = ctx.scene.cycles.tile_x ∧
      ctx'.scene.cycles.tile_y = ctx.scene.cycles.tile_y) := by
  obtain ⟨c2, ho, hcase⟩ := orchestrator_success_decomp ctx ctx' hr hok
  obtain ⟨_, _, _, _, _, hat, htx, hty⟩ := setup_oidn_ok_fields _ _ ho
  obtain ⟨gat, gtx, gty⟩ := setup_gpu_rendering_preserves_tiles ctx
  have hat' : c2.scene.cycles.use_auto_tile = ctx.scene.cycles.use_auto_tile := by
    rw [hat, gat]
  have htx' : c2.scene.cycles.tile_x = ctx.scene.cycles.tile_x := by
    rw [htx, gtx]
  have hty' : c2.scene.cycles.tile_y = ctx.scene.cycles.tile_y := by
    rw [hty, gty]
  rcases hcase with ⟨hi, rfl⟩ | ⟨hi, rfl⟩
  · constructor
    · intro _
      exact ⟨rfl, rfl, rfl⟩
    · intro hnone
      rw [hat', hnone] at hi
      simp at hi
  · constructor
    · intro hsome
      rw [hat'] at hi
      rw [hi] at hsome
      simp at hsome
    · intro hnone
      exact ⟨hat'.trans hnone, htx', hty'⟩

/-- Witness for C10 at two concrete host states, one with `use_auto_tile`
present and one with it absent. -/
theorem tile_settings_on_success_path_witness :
    (reaches_configurator baseContext = true ∧
     setup_gpu_and_denoiser baseContext = Except.ok (successResult baseContext) ∧
     baseContext.scene.cycles.use_auto_tile.isSome = true ∧
     ((successResult baseContext).scene.cycles.use_auto_tile = some false ∧
      (successResult baseContext).scene.cycles.tile_x = 256 ∧
      (successResult baseContext).scene.cycles.tile_y = 256)) ∧
    (reaches_configurator sparseContext = true ∧
     setup_gpu_and_denoiser sparseContext = Except.ok (successResult sparseContext) ∧
     sparseContext.scene.cycles.use_auto_tile = none ∧
     ((successResult sparseContext).scene.cycles.use_auto_tile = none ∧
      (successResult sparseContext).scene.cycles.tile_x =
        sparseContext.scene.cycles.tile_x ∧
      (successResult sparseContext).scene.cycles.tile_y =
        sparseContext.scene.cycles.tile_y)) :=
  ⟨⟨by decide, rfl, by decide,
    (tile_settings_on_success_path baseContext (successResult baseContext)
      (by decide) rfl).1 (by decide)⟩,
   ⟨by decide, rfl, by decide,
    (tile_settings_on_success_path sparseContext (successResult sparseContext)
      (by decide) rfl).2 (by decide)⟩⟩

/-- C8: the entry point exits 0 with the success line when the
orchestrator returns, and prints the message and exits 1 when it raises. -/
theorem main_entry_exit_codes (ctx : Context) :
    ((∃ c, setup_gpu_and_denoiser ctx = Except.ok c) →
      main_entry ctx = (["Setup completed successfully."], 0)) ∧
    (∀ e, setup_gpu_and_denoiser ctx = Except.error e →
      main_entry ctx = (["Error: " ++ e], 1)) := by
  constructor
  · rintro ⟨c, hc⟩
    unfold main_entry
    rw [hc]
  · intro e he
    unfold main_entry
    rw [he]

/-- Witness for C8 at a succeeding host state and at a raising one. -/
theorem main_entry_exit_codes_witness :
    (∃ c, setup_gpu_and_denoiser baseContext = Except.ok c) ∧
    main_entry baseContext = (["Setup completed successfully."], 0) ∧
    setup_gpu_and_denoiser missingDenoisingContext =
      Except.error "AttributeError: use_denoising" ∧
    main_entry missingDenoisingContext =
      (["Error: AttributeError: use_denoising"], 1) :=
  ⟨⟨successResult baseContext, rfl⟩,
   (main_entry_exit_codes baseContext).1 ⟨successResult baseContext, rfl⟩,
   rfl,
   (main_entry_exit_codes missingDenoisingContext).2 "AttributeError: use_denoising" rfl⟩
